import Mathlib

/-!
Shallow embedding of the LegCo Search server core (src/legco_search_mcp/server.py):
input validation, string sanitization, per-endpoint OData filter compilation,
query-parameter assembly, and response normalization (XML count extraction and
JSON metadata attachment).  Python strings are modelled as Lean strings
(character lists); Python dicts that preserve insertion order are modelled as
association lists; a raised exception is modelled as an error constructor.
The ASCII fragment of Python's regex character classes is modelled (all inputs
relevant here are ASCII).
-/

/-- Characters kept by the sanitizer regex, the ASCII fragment of
Python `[^\w\s\-.,()[\]']` complement: word chars (alphanumeric plus
underscore), whitespace, and `- . , ( ) [ ] '`. -/
def allowedChar (c : Char) : Bool :=
  c.isAlphanum || c == '_' || c.isWhitespace || c == '-' || c == '.' ||
    c == ',' || c == '(' || c == ')' || c == '[' || c == ']' || c == '\''

/-- OData quote escaping: each single quote is doubled, as in
Python `value.replace(chr(39), chr(39)*2)` applied characterwise. -/
def doubleQuotes : List Char → List Char
  | [] => []
  | c :: r => if c = '\'' then '\'' :: '\'' :: doubleQuotes r else c :: doubleQuotes r

/-- The sanitizer `_sanitize_string`: strip disallowed characters, double each
single quote, then truncate to 500 characters (in this order). -/
def sanitize_string (s : String) : String :=
  ⟨(doubleQuotes (s.data.filter allowedChar)).take 500⟩

/-- Numeric value of an ASCII digit character. -/
def digitVal (c : Char) : Nat := c.toNat - 48

/-- Value of a decimal digit string (most significant digit first). -/
def natOfDigits (l : List Char) : Nat := l.foldl (fun a c => a * 10 + digitVal c) 0

/-- All characters are ASCII digits. -/
def allDigits (l : List Char) : Bool := l.all Char.isDigit

/-- Split a character list at each dash, like `str.split` on a single dash. -/
def splitDash : List Char → List (List Char)
  | [] => [[]]
  | c :: r =>
    if c = '-' then [] :: splitDash r
    else
      match splitDash r with
      | [] => [[c]]
      | h :: t => (c :: h) :: t

/-- Month field of Python `strptime` directive `%m`, regex `1[0-2]|0[1-9]|[1-9]`:
one or two digits with value 1..12. -/
def monthPat (m : List Char) : Bool :=
  (m.length == 1 || m.length == 2) && allDigits m &&
    decide (1 ≤ natOfDigits m) && decide (natOfDigits m ≤ 12)

/-- Day field of Python `strptime` directive `%d`, regex `3[01]|[12]\d|0[1-9]|[1-9]`:
one or two digits with value 1..31. -/
def dayPat (d : List Char) : Bool :=
  (d.length == 1 || d.length == 2) && allDigits d &&
    decide (1 ≤ natOfDigits d) && decide (natOfDigits d ≤ 31)

/-- Gregorian leap-year rule used by Python `datetime`. -/
def isLeap (y : Nat) : Bool := y % 4 == 0 && (y % 100 != 0 || y % 400 == 0)

/-- Number of days in a month, as enforced by the `datetime` constructor. -/
def daysInMonth (y m : Nat) : Nat :=
  if m = 2 then (if isLeap y then 29 else 28)
  else if m = 4 || m = 6 || m = 9 || m = 11 then 30
  else 31

/-- Python `datetime.strptime(s, fmt)` with format `%Y-%m-%d`, regex phase:
`%Y` is exactly four digits, `%m` and `%d` are one or two digits in range,
separated by literal dashes, matching the whole string.  Since the three
fields are digit-only, a full match is exactly a three-way dash split whose
parts satisfy the field patterns. -/
def strptimeYmdL (l : List Char) : Option (Nat × Nat × Nat) :=
  match splitDash l with
  | [y, m, d] =>
    if (y.length == 4) && allDigits y && monthPat m && dayPat d then
      some (natOfDigits y, natOfDigits m, natOfDigits d)
    else none
  | _ => none

/-- The validator `_validate_date_format` on character lists: empty input is
accepted; otherwise `strptime` must match and the `datetime` constructor must
accept (year at least 1, day within the month). -/
def validateDateL (l : List Char) : Bool :=
  match l with
  | [] => true
  | _ =>
    match strptimeYmdL l with
    | some (y, m, d) => decide (1 ≤ y) && decide (d ≤ daysInMonth y m)
    | none => false

/-- The validator `_validate_date_format` on strings. -/
def validate_date_format (s : String) : Bool := validateDateL s.data

/-- The validator `_validate_enum`: exact membership in the allow-list. -/
def validate_enum (value : String) (allowed : List String) : Bool :=
  allowed.contains value

/-- List version of `String.startsWith` (pattern first). -/
def startsWithL : List Char → List Char → Bool
  | [], _ => true
  | _ :: _, [] => false
  | p :: ps, h :: hs => p == h && startsWithL ps hs

/-- Python substring membership `pat in hay`. -/
def containsSub (pat : List Char) : List Char → Bool
  | [] => startsWithL pat []
  | c :: r => startsWithL pat (c :: r) || containsSub pat r

/-- Helper for `_extract_xml_count`: the regex `<m:count>(\d+)</m:count>`
anchored at the head of the list -- the literal open tag, then a nonempty
greedy digit run, then the literal close tag. -/
def tryCountAt (l : List Char) : Option Nat :=
  if startsWithL ("<m:count>").data l then
    let t := l.drop 9
    let ds := t.takeWhile Char.isDigit
    if (!ds.isEmpty) && startsWithL ("</m:count>").data (t.drop ds.length) then
      some (natOfDigits ds)
    else none
  else none

/-- Left-to-right scan of `re.search` for the count pattern. -/
def xmlCountScan : List Char → Option Nat
  | [] => none
  | c :: r =>
    match tryCountAt (c :: r) with
    | some n => some n
    | none => xmlCountScan r

/-- The extractor `_extract_xml_count`: first match of
`<m:count>(\d+)</m:count>` anywhere in the text, absence giving `none`. -/
def extract_xml_count (s : String) : Option Nat := xmlCountScan s.data

/-- Endpoint registry `BASE_URLS` as an ordered association list. -/
def BASE_URLS : List (String × String) :=
  [("voting", "https://app.legco.gov.hk/vrdb/odata/vVotingResult"),
   ("bills", "https://app.legco.gov.hk/BillsDB/odata/Vbills"),
   ("questions_oral", "https://app.legco.gov.hk/QuestionsDB/odata/ViewOralQuestionsEng"),
   ("questions_written", "https://app.legco.gov.hk/QuestionsDB/odata/ViewWrittenQuestionsEng"),
   ("hansard", "https://app.legco.gov.hk/OpenData/HansardDB/Hansard"),
   ("hansard_questions", "https://app.legco.gov.hk/OpenData/HansardDB/Questions"),
   ("hansard_bills", "https://app.legco.gov.hk/OpenData/HansardDB/Bills"),
   ("hansard_motions", "https://app.legco.gov.hk/OpenData/HansardDB/Motions"),
   ("hansard_voting", "https://app.legco.gov.hk/OpenData/HansardDB/VotingResults")]

/-- The `params` dict handed to `_search_odata_endpoint`: every key any tool
ever passes, each optional (`none` models both an absent key and `None`). -/
structure OParams where
  meeting_type : Option String := none
  start_date : Option String := none
  end_date : Option String := none
  member_name : Option String := none
  motion_keywords : Option String := none
  term_no : Option Int := none
  title_keywords : Option String := none
  gazette_year : Option Int := none
  gazette_start_date : Option String := none
  gazette_end_date : Option String := none
  subject_keywords : Option String := none
  speaker : Option String := none
  meeting_date : Option String := none
  year : Option Int := none
  question_type : Option String := none
  top : Option Int := none
  skip : Option Int := none
  format : Option String := none
deriving DecidableEq

/-- Python truthiness of an optional string (`None` and the empty string are
falsy). -/
def truthyStr : Option String → Bool
  | none => false
  | some s => !s.isEmpty

/-- Python truthiness of an optional integer (`None` and `0` are falsy). -/
def truthyInt : Option Int → Bool
  | none => false
  | some n => !(n == 0)

/-- Filter clauses built by `_search_odata_endpoint` lines 421-475, in source
order; each truthy semantic field contributes one clause (two for the hansard
questions sub-type), free text sanitized before interpolation. -/
def buildFilters (endpoint : String) (p : OParams) : List String :=
  if endpoint = "voting" then
    (if truthyStr p.meeting_type then
      ["type eq '" ++ (sanitize_string (p.meeting_type.getD (""))).data.asString ++ "'"] else [])
    ++ (if truthyStr p.start_date then
      ["start_date ge datetime'" ++ (p.start_date.getD ("")) ++ "'"] else [])
    ++ (if truthyStr p.end_date then
      ["start_date le datetime'" ++ (p.end_date.getD ("")) ++ "'"] else [])
    ++ (if truthyStr p.member_name then
      ["substringof('" ++ (sanitize_string (p.member_name.getD (""))) ++ "', name_en)"] else [])
    ++ (if truthyStr p.motion_keywords then
      ["substringof('" ++ (sanitize_string (p.motion_keywords.getD (""))) ++ "', motion_en)"] else [])
    ++ (if truthyInt p.term_no then
      ["term_no eq " ++ toString (p.term_no.getD 0)] else [])
  else if endpoint = "bills" then
    (if truthyStr p.title_keywords then
      ["substringof('" ++ (sanitize_string (p.title_keywords.getD (""))) ++ "', bill_title_eng)"] else [])
    ++ (if truthyInt p.gazette_year then
      ["year(bill_gazette_date) eq " ++ toString (p.gazette_year.getD 0)] else [])
    ++ (if truthyStr p.gazette_start_date then
      ["bill_gazette_date ge datetime'" ++ (p.gazette_start_date.getD ("")) ++ "'"] else [])
    ++ (if truthyStr p.gazette_end_date then
      ["bill_gazette_date le datetime'" ++ (p.gazette_end_date.getD ("")) ++ "'"] else [])
  else if endpoint = "questions_oral" ∨ endpoint = "questions_written" then
    (if truthyStr p.subject_keywords then
      ["substringof('" ++ (sanitize_string (p.subject_keywords.getD (""))) ++ "', SubjectName)"] else [])
    ++ (if truthyStr p.member_name then
      ["substringof('" ++ (sanitize_string (p.member_name.getD (""))) ++ "', MemberName)"] else [])
    ++ (if truthyStr p.meeting_date then
      ["MeetingDate eq datetime'" ++ (p.meeting_date.getD ("")) ++ "'"] else [])
    ++ (if truthyInt p.year then
      ["year(MeetingDate) eq " ++ toString (p.year.getD 0)] else [])
  else if startsWithL ("hansard").data endpoint.data then
    (if truthyStr p.subject_keywords then
      ["substringof('" ++ (sanitize_string (p.subject_keywords.getD (""))) ++ "', Subject)"] else [])
    ++ (if truthyStr p.speaker then
      ["Speaker eq '" ++ (sanitize_string (p.speaker.getD (""))) ++ "'"] else [])
    ++ (if truthyStr p.meeting_date then
      ["MeetingDate eq datetime'" ++ (p.meeting_date.getD ("")) ++ "'"] else [])
    ++ (if truthyInt p.year then
      ["year(MeetingDate) eq " ++ toString (p.year.getD 0)] else [])
    ++ (if truthyStr p.question_type && (endpoint == "hansard_questions") then
      ["QuestionType eq '" ++ (sanitize_string (p.question_type.getD (""))) ++ "'",
       "HansardType eq 'English'"] else [])
  else []

/-- Query parameters assembled by `_search_odata_endpoint` lines 404-479, in
dict insertion order: `$format` only when xml was requested, then `$top` and
`$skip` whenever present (even zero), then always `$inlinecount=allpages`,
then `$filter` when at least one clause was built. -/
def buildQueryParams (endpoint : String) (p : OParams) : List (String × String) :=
  (if p.format = some ("xml") then [(("$format" : String), ("xml" : String))] else [])
  ++ (match p.top with
      | some t => [(("$top" : String), toString t)]
      | none => [])
  ++ (match p.skip with
      | some k => [(("$skip" : String), toString k)]
      | none => [])
  ++ [(("$inlinecount" : String), ("allpages" : String))]
  ++ (match buildFilters endpoint p with
      | [] => []
      | fs => [(("$filter" : String), String.intercalate (" and ") fs)])

/-- Outcome of a tool call, up to the network boundary: a `ValueError` raised
by validation, a `LegCoAPIError` raised before the request, or an HTTP GET
dispatched to the named endpoint with the compiled query parameters. -/
inductive SearchOutcome where
  | err : String → SearchOutcome
  | apiErr : String → SearchOutcome
  | query : String → List (String × String) → SearchOutcome
deriving DecidableEq

/-- Whether the outcome is a validation `ValueError`. -/
def SearchOutcome.isErr : SearchOutcome → Bool
  | .err _ => true
  | _ => false

/-- The compile part of `_search_odata_endpoint`: unknown registry names raise
`LegCoAPIError`, otherwise the query is dispatched. -/
def search_odata_endpoint (endpoint : String) (p : OParams) : SearchOutcome :=
  match BASE_URLS.lookup endpoint with
  | none => .apiErr ("Unknown endpoint: " ++ endpoint)
  | some _ => .query endpoint (buildQueryParams endpoint p)

/-- Allowed meeting types for the voting tool. -/
def MEETING_TYPES : List String :=
  ["Council Meeting", "House Committee", "Finance Committee",
   "Establishment Subcommittee", "Public Works Subcommittee"]

/-- The tool `search_voting_results`: the validation chain in source order,
then dispatch to the voting endpoint. -/
def search_voting_results (meeting_type start_date end_date member_name
    motion_keywords : Option String) (term_no : Option Int)
    (top skip : Int) (format : String) : SearchOutcome :=
  if truthyStr meeting_type && !(validate_enum (meeting_type.getD ("")) MEETING_TYPES) then
    .err ("Invalid meeting_type: " ++ meeting_type.getD (""))
  else if truthyStr start_date && !(validate_date_format (start_date.getD (""))) then
    .err ("Invalid start_date format: " ++ start_date.getD ("") ++ ". Use YYYY-MM-DD")
  else if truthyStr end_date && !(validate_date_format (end_date.getD (""))) then
    .err ("Invalid end_date format: " ++ end_date.getD ("") ++ ". Use YYYY-MM-DD")
  else if truthyInt term_no && decide (term_no.getD 0 < 1) then
    .err ("Invalid term_no: " ++ toString (term_no.getD 0) ++ ". Must be a positive integer")
  else if decide (top < 1) || decide (top > 1000) then
    .err ("Invalid top: " ++ toString top ++ ". Must be between 1 and 1000")
  else if decide (skip < 0) then
    .err ("Invalid skip: " ++ toString skip ++ ". Must be non-negative")
  else if !(format = "json" ∨ format = "xml" : Bool) then
    .err ("Invalid format: " ++ format ++ ". Must be 'json' or 'xml'")
  else
    search_odata_endpoint ("voting")
      { meeting_type := meeting_type, start_date := start_date, end_date := end_date,
        member_name := member_name, motion_keywords := motion_keywords,
        term_no := term_no, top := some top, skip := some skip, format := some format }

/-- The tool `search_bills`: note the source checks `gazette_year` before the
gazette date fields. -/
def search_bills (title_keywords : Option String) (gazette_year : Option Int)
    (gazette_start_date gazette_end_date : Option String)
    (top skip : Int) (format : String) : SearchOutcome :=
  if truthyInt gazette_year &&
      (decide (gazette_year.getD 0 < 1800) || decide (gazette_year.getD 0 > 2100)) then
    .err ("Invalid gazette_year: " ++ toString (gazette_year.getD 0) ++
      ". Must be between 1800 and 2100")
  else if truthyStr gazette_start_date &&
      !(validate_date_format (gazette_start_date.getD (""))) then
    .err ("Invalid gazette_start_date format: " ++ gazette_start_date.getD ("") ++
      ". Use YYYY-MM-DD")
  else if truthyStr gazette_end_date &&
      !(validate_date_format (gazette_end_date.getD (""))) then
    .err ("Invalid gazette_end_date format: " ++ gazette_end_date.getD ("") ++
      ". Use YYYY-MM-DD")
  else if decide (top < 1) || decide (top > 1000) then
    .err ("Invalid top: " ++ toString top ++ ". Must be between 1 and 1000")
  else if decide (skip < 0) then
    .err ("Invalid skip: " ++ toString skip ++ ". Must be non-negative")
  else if !(format = "json" ∨ format = "xml" : Bool) then
    .err ("Invalid format: " ++ format ++ ". Must be 'json' or 'xml'")
  else
    search_odata_endpoint ("bills")
      { title_keywords := title_keywords, gazette_year := gazette_year,
        gazette_start_date := gazette_start_date, gazette_end_date := gazette_end_date,
        top := some top, skip := some skip, format := some format }

/-- The tool `search_questions`: endpoint chosen by `question_type`. -/
def search_questions (question_type : String)
    (subject_keywords member_name meeting_date : Option String) (year : Option Int)
    (top skip : Int) (format : String) : SearchOutcome :=
  if !(validate_enum question_type [("oral" : String), ("written" : String)]) then
    .err ("Invalid question_type: " ++ question_type ++ ". Must be 'oral' or 'written'")
  else if truthyStr meeting_date && !(validate_date_format (meeting_date.getD (""))) then
    .err ("Invalid meeting_date format: " ++ meeting_date.getD ("") ++ ". Use YYYY-MM-DD")
  else if truthyInt year && (decide (year.getD 0 < 2000) || decide (year.getD 0 > 2100)) then
    .err ("Invalid year: " ++ toString (year.getD 0) ++ ". Must be between 2000 and 2100")
  else if decide (top < 1) || decide (top > 1000) then
    .err ("Invalid top: " ++ toString top ++ ". Must be between 1 and 1000")
  else if decide (skip < 0) then
    .err ("Invalid skip: " ++ toString skip ++ ". Must be non-negative")
  else if !(format = "json" ∨ format = "xml" : Bool) then
    .err ("Invalid format: " ++ format ++ ". Must be 'json' or 'xml'")
  else
    search_odata_endpoint
      (if question_type = "oral" then "questions_oral" else "questions_written")
      { subject_keywords := subject_keywords, member_name := member_name,
        meeting_date := meeting_date, year := year,
        top := some top, skip := some skip, format := some format }

/-- Hansard sub-type routing table of `search_hansard` (source line 313). -/
def endpointMap : List (String × String) :=
  [("hansard", "hansard"), ("questions", "hansard_questions"),
   ("bills", "hansard_bills"), ("motions", "hansard_motions"),
   ("voting", "hansard_voting")]

/-- Allowed hansard sub-types. -/
def HANSARD_TYPES : List String := ["hansard", "questions", "bills", "motions", "voting"]

/-- Allowed hansard question types. -/
def QUESTION_TYPES : List String := ["Oral", "Written", "Urgent"]

/-- The tool `search_hansard`: validation chain, then routing through
`endpointMap` with a silent default to the base hansard endpoint. -/
def search_hansard (hansard_type : String)
    (subject_keywords speaker meeting_date : Option String) (year : Option Int)
    (question_type : Option String) (top skip : Int) (format : String) : SearchOutcome :=
  if !(validate_enum hansard_type HANSARD_TYPES) then
    .err ("Invalid hansard_type: " ++ hansard_type ++
      ". Must be one of: hansard, questions, bills, motions, voting")
  else if truthyStr meeting_date && !(validate_date_format (meeting_date.getD (""))) then
    .err ("Invalid meeting_date format: " ++ meeting_date.getD ("") ++ ". Use YYYY-MM-DD")
  else if truthyInt year && (decide (year.getD 0 < 2000) || decide (year.getD 0 > 2100)) then
    .err ("Invalid year: " ++ toString (year.getD 0) ++ ". Must be between 2000 and 2100")
  else if truthyStr question_type && !(validate_enum (question_type.getD ("")) QUESTION_TYPES) then
    .err ("Invalid question_type: " ++ question_type.getD ("") ++
      ". Must be 'Oral', 'Written', or 'Urgent'")
  else if decide (top < 1) || decide (top > 1000) then
    .err ("Invalid top: " ++ toString top ++ ". Must be between 1 and 1000")
  else if decide (skip < 0) then
    .err ("Invalid skip: " ++ toString skip ++ ". Must be non-negative")
  else if !(format = "json" ∨ format = "xml" : Bool) then
    .err ("Invalid format: " ++ format ++ ". Must be 'json' or 'xml'")
  else
    search_odata_endpoint ((endpointMap.lookup hansard_type).getD ("hansard"))
      { subject_keywords := subject_keywords, speaker := speaker,
        meeting_date := meeting_date, year := year, question_type := question_type,
        top := some top, skip := some skip, format := some format }

/-- Python `str` of an insertion-ordered dict of strings, e.g.
`\x7b'$top': '100', '$skip': '0'\x7d`. -/
def pyDictStr (qp : List (String × String)) : String :=
  "\x7b" ++
    String.intercalate (", ")
      (qp.map (fun kv => "'" ++ kv.1 ++ "': '" ++ kv.2 ++ "'")) ++
  "\x7d"

/-- The XML branch of the success envelope (source lines 490-496). -/
structure XmlEnvelope where
  data : String
  format : String
  content_type : String
  total_records : Option Nat
deriving DecidableEq

/-- XML response normalization: raw body and declared content type are passed
through; `total_records` is extracted only under the source's guard, which
tests whether the text `$inlinecount=allpages` occurs in the Python string
rendering of the query-parameter dict. -/
def xmlResult (qp : List (String × String)) (body ct : String) : XmlEnvelope :=
  { data := body
    format := "xml"
    content_type := ct
    total_records :=
      if containsSub ("$inlinecount=allpages").data (pyDictStr qp).data then
        extract_xml_count body
      else none }

/-- Parsed JSON values (objects keep key insertion order). -/
inductive JValue where
  | null : JValue
  | jstr : String → JValue
  | jnum : Int → JValue
  | jobj : List (String × JValue) → JValue
  | jarr : List JValue → JValue

/-- First value bound to a key in a JSON object (dict keys are unique). -/
def lookupJ (fields : List (String × JValue)) (k : String) : Option JValue :=
  match fields with
  | [] => none
  | kv :: r => if kv.1 = k then some kv.2 else lookupJ r k

/-- Python dict assignment: replace the bound value in place, or append. -/
def setKey (fields : List (String × JValue)) (k : String) (v : JValue) :
    List (String × JValue) :=
  match fields with
  | [] => [(k, v)]
  | kv :: r => if kv.1 = k then (k, v) :: r else kv :: setKey r k v

/-- Nested count access `json_data.get('d', ...).get('__count')` guarded by
`'d' in json_data`: absent `d` gives no count, an object `d` gives its
`__count` binding when any, and a non-object `d` raises (AttributeError,
caught and re-raised as `LegCoAPIError`). -/
def dCountE (fields : List (String × JValue)) : Except String (Option JValue) :=
  match lookupJ fields ("d") with
  | none => .ok none
  | some (JValue.jobj dfields) => .ok (lookupJ dfields ("__count"))
  | some _ => .error ("Unexpected error: attribute access on non-object d")

/-- Echoed query parameters of the metadata block: only keys not starting
with a dollar sign survive the filter. -/
def echoParams (qp : List (String × String)) : List (String × JValue) :=
  (qp.filter (fun kv => !(startsWithL ("$").data kv.1.data))).map
    (fun kv => (kv.1, JValue.jstr kv.2))

/-- The JSON branch of the success envelope (source lines 497-506): a JSON
object gets a `_metadata` entry with the endpoint name, the dollar-filtered
query-parameter echo, and the nested count (Python `None` rendered as null);
a non-object JSON value is returned unchanged. -/
def jsonResult (endpoint : String) (qp : List (String × String)) (j : JValue) :
    Except String JValue :=
  match j with
  | JValue.jobj fields =>
    match dCountE fields with
    | .error e => .error e
    | .ok cnt =>
      .ok (JValue.jobj (setKey fields ("_metadata")
        (JValue.jobj
          [(("endpoint" : String), JValue.jstr endpoint),
           (("query_params" : String), JValue.jobj (echoParams qp)),
           (("total_available" : String), cnt.getD JValue.null)])))
  | j => .ok j

/-- ASCII digit character for a value below ten. -/
def digitChar (n : Nat) : Char := Char.ofNat (48 + n)

/-- Canonical four-digit zero-padded rendering of a year. -/
def pad4 (n : Nat) : List Char :=
  [digitChar (n / 1000 % 10), digitChar (n / 100 % 10), digitChar (n / 10 % 10),
   digitChar (n % 10)]

/-- Canonical two-digit zero-padded rendering of a month or day. -/
def pad2 (n : Nat) : List Char := [digitChar (n / 10 % 10), digitChar (n % 10)]

/-- Canonical `YYYY-MM-DD` rendering of a calendar date. -/
def dateStr (y m d : Nat) : String := ⟨pad4 y ++ '-' :: (pad2 m ++ '-' :: pad2 d)⟩

/-- Input exhibiting the sanitizer truncation boundary: 499 allowed characters
followed by one single quote. -/
def c10Input : String := ⟨List.replicate 499 'a' ++ ['\'']⟩

/-- Doubling quotes is the identity on quote-free character lists. -/
theorem doubleQuotes_of_not_mem {l : List Char} (h : '\'' ∉ l) : doubleQuotes l = l := by
  induction l with
  | nil => rfl
  | cons c r ih =>
    have hc : ¬ c = '\'' := fun e => h (e ▸ List.mem_cons_self c r)
    have hr : '\'' ∉ r := fun hm => h (List.mem_cons_of_mem c hm)
    simp [doubleQuotes, hc, ih hr]

set_option maxRecDepth 20000 in
/-- Claim C10: truncation to 500 characters runs after quote doubling, so on
499 allowed characters followed by a single quote the sanitizer returns its
input unchanged -- 500 characters whose last is a single quote occurring
exactly once, hence bare and unpaired. -/
theorem c10_truncation_leaves_unpaired_quote :
    c10Input.data.all allowedChar = true ∧
    sanitize_string c10Input = c10Input ∧
    (sanitize_string c10Input).data.length = 500 ∧
    (sanitize_string c10Input).data.getLast? = some '\'' ∧
    (sanitize_string c10Input).data.count '\'' = 1 := by
  refine ⟨by decide, by decide, by decide, by decide, by decide⟩

/-- Claim C6 counterexample: the single quote is in the allowed character set,
yet sanitizing twice quadruples it, so the sanitizer is not idempotent on the
claimed set. -/
theorem c6_counterexample_quote :
    ("'" : String).data.all allowedChar = true ∧
    sanitize_string (sanitize_string ("'")) ≠ sanitize_string ("'") := by
  refine ⟨by decide, by decide⟩

/-- Claim C6 (amended): the sanitizer is idempotent on strings of allowed
characters that contain no single quote; quote doubling, rerun on its own
output, doubles again, which is what forces the quote exclusion. -/
theorem c6_sanitize_idempotent_amended (s : String)
    (h1 : s.data.all allowedChar = true) (h2 : '\'' ∉ s.data) :
    sanitize_string (sanitize_string s) = sanitize_string s := by
  unfold sanitize_string
  have hf : s.data.filter allowedChar = s.data :=
    List.filter_eq_self.mpr (List.all_eq_true.mp h1)
  rw [hf, doubleQuotes_of_not_mem h2]
  have ht1 : (s.data.take 500).filter allowedChar = s.data.take 500 :=
    List.filter_eq_self.mpr
      (fun a ha => List.all_eq_true.mp h1 a (List.take_subset 500 s.data ha))
  have ht2 : '\'' ∉ s.data.take 500 :=
    fun hm => h2 (List.take_subset 500 s.data hm)
  show (⟨(doubleQuotes ((s.data.take 500).filter allowedChar)).take 500⟩ : String) = _
  rw [ht1, doubleQuotes_of_not_mem ht2, List.take_take]
  norm_num

/-- Witness for the amended C6 theorem at a concrete allowed, quote-free
string. -/
theorem c6_sanitize_idempotent_amended_witness :
    sanitize_string (sanitize_string ("abc (2024)")) = sanitize_string ("abc (2024)") :=
  c6_sanitize_idempotent_amended ("abc (2024)") (by decide) (by decide)

/-- Claim C1: an XML-format voting search compiles these query parameters,
the extractor does find the count 42 in the body, yet the envelope's
`total_records` is `none`, because the code guards the extraction on the text
`$inlinecount=allpages` occurring in the Python rendering of the parameter
dict, which renders the pair with a colon and never contains that text. -/
theorem c1_xml_total_records_always_none :
    search_voting_results (some ("Council Meeting")) none none none none none 100 0 ("xml")
      = SearchOutcome.query ("voting")
          [("$format", "xml"), ("$top", "100"), ("$skip", "0"),
           ("$inlinecount", "allpages"), ("$filter", "type eq 'Council Meeting'")] ∧
    extract_xml_count ("<feed><m:count>42</m:count></feed>") = some 42 ∧
    containsSub ("$inlinecount=allpages").data
      (pyDictStr [("$format", "xml"), ("$top", "100"), ("$skip", "0"),
        ("$inlinecount", "allpages"), ("$filter", "type eq 'Council Meeting'")]).data
      = false ∧
    (xmlResult [("$format", "xml"), ("$top", "100"), ("$skip", "0"),
        ("$inlinecount", "allpages"), ("$filter", "type eq 'Council Meeting'")]
      ("<feed><m:count>42</m:count></feed>") ("application/xml")).total_records = none := by
  refine ⟨by decide, by decide, by decide, by decide⟩

/-- Claim C2 counterexample: on a successful JSON voting search whose query
carried a `$filter`, the attached metadata echoes an empty parameter object --
every compiled key is dollar-prefixed and the echo keeps only non-dollar keys
-- so the filter expression does not appear in the metadata. -/
theorem c2_counterexample_empty_echo :
    jsonResult ("voting")
        [("$top", "100"), ("$skip", "0"), ("$inlinecount", "allpages"),
         ("$filter", "type eq 'Council Meeting'")]
        (JValue.jobj [("d", JValue.jobj [("__count", JValue.jstr ("7"))])])
      = Except.ok (JValue.jobj
          [("d", JValue.jobj [("__count", JValue.jstr ("7"))]),
           ("_metadata", JValue.jobj
             [("endpoint", JValue.jstr ("voting")),
              ("query_params", JValue.jobj []),
              ("total_available", JValue.jstr ("7"))])]) := by
  rfl

/-- Claim C3 counterexample: a date with single-digit month and day fields is
accepted, because Python strptime's month and day directives match one or two
digits. -/
theorem c3_counterexample_single_digit_accepted :
    validate_date_format ("2023-1-1") = true := by decide

/-- Claim C4 counterexample: a validated hansard search routed to the
questions sub-type but carrying no question_type compiles no filter at all,
so neither the QuestionType clause nor the HansardType locale pin is present. -/
theorem c4_counterexample_no_question_type :
    search_hansard ("questions") none none none none none 100 0 ("json")
      = SearchOutcome.query ("hansard_questions")
          [("$top", "100"), ("$skip", "0"), ("$inlinecount", "allpages")] := by
  decide

/-- Claim C5 counterexample: `term_no = 0` is below the documented minimum 1,
yet the request passes validation and is dispatched to the network, because
the range check is guarded by Python truthiness and zero is falsy. -/
theorem c5_counterexample_zero_term_no :
    search_voting_results none none none none none (some 0) 100 0 ("json")
      = SearchOutcome.query ("voting")
          [("$top", "100"), ("$skip", "0"), ("$inlinecount", "allpages")] := by
  decide

/-- Claim C8 counterexample: a bills request with both an out-of-range
gazette_year and a malformed gazette_start_date reports the numeric-range
error, not the date error the claimed order demands, because the source
checks gazette_year first. -/
theorem c8_counterexample_year_error_first :
    search_bills none (some 3000) (some ("2023-13-01")) none 100 0 ("json")
      = SearchOutcome.err ("Invalid gazette_year: 3000. Must be between 1800 and 2100") ∧
    SearchOutcome.err ("Invalid gazette_year: 3000. Must be between 1800 and 2100") ≠
      SearchOutcome.err ("Invalid gazette_start_date format: 2023-13-01. Use YYYY-MM-DD") := by
  refine ⟨by decide, by decide⟩

/-- A digit character is not a dash. -/
theorem digit_not_dash {c : Char} (h : c.isDigit = true) : ¬ c = '-' := by
  intro e; subst e; simp [Char.isDigit] at h

/-- No dash occurs in an all-digit character list. -/
theorem not_dash_mem_of_allDigits {l : List Char} (h : allDigits l = true) : '-' ∉ l := by
  intro hm
  exact absurd (List.all_eq_true.mp h '-' hm) (by decide)

/-- Splitting a dash-free list yields the list itself as the only part. -/
theorem splitDash_of_not_mem {l : List Char} (h : '-' ∉ l) : splitDash l = [l] := by
  induction l with
  | nil => rfl
  | cons c r ih =>
    have hc : ¬ c = '-' := fun e => h (e ▸ List.mem_cons_self c r)
    have hr : '-' ∉ r := fun hm => h (List.mem_cons_of_mem c hm)
    simp [splitDash, hc, ih hr]

/-- Splitting past a dash-free block peels off exactly that block. -/
theorem splitDash_append {a : List Char} (r : List Char) (h : '-' ∉ a) :
    splitDash (a ++ '-' :: r) = a :: splitDash r := by
  induction a with
  | nil =>
    show splitDash ('-' :: r) = [] :: splitDash r
    simp [splitDash]
  | cons c a ih =>
    have hc : ¬ c = '-' := fun e => h (e ▸ List.mem_cons_self c a)
    have ha : '-' ∉ a := fun hm => h (List.mem_cons_of_mem c hm)
    show splitDash (c :: (a ++ '-' :: r)) = (c :: a) :: splitDash r
    simp [splitDash, hc, ih ha]

/-- A value below ten renders as a digit character. -/
theorem digitChar_isDigit {n : Nat} (h : n < 10) : (digitChar n).isDigit = true := by
  interval_cases n <;> decide

/-- The numeric value of a rendered digit is the value itself. -/
theorem digitVal_digitChar {n : Nat} (h : n < 10) : digitVal (digitChar n) = n := by
  interval_cases n <;> decide

/-- Two-digit renderings are all digits. -/
theorem allDigits_pad2 (n : Nat) : allDigits (pad2 n) = true := by
  simp [allDigits, pad2, List.all_cons,
    digitChar_isDigit (Nat.mod_lt _ (by norm_num)),
    digitChar_isDigit (Nat.mod_lt (n / 10) (by norm_num))]

/-- Four-digit renderings are all digits. -/
theorem allDigits_pad4 (n : Nat) : allDigits (pad4 n) = true := by
  simp [allDigits, pad4, List.all_cons,
    digitChar_isDigit (Nat.mod_lt _ (by norm_num)),
    digitChar_isDigit (Nat.mod_lt (n / 10) (by norm_num)),
    digitChar_isDigit (Nat.mod_lt (n / 100) (by norm_num)),
    digitChar_isDigit (Nat.mod_lt (n / 1000) (by norm_num))]

/-- Value of the two-digit rendering of a number below 100. -/
theorem natOfDigits_pad2 {n : Nat} (h : n < 100) : natOfDigits (pad2 n) = n := by
  simp only [natOfDigits, pad2, List.foldl_cons, List.foldl_nil,
    digitVal_digitChar (Nat.mod_lt _ (by norm_num)),
    digitVal_digitChar (Nat.mod_lt (n / 10) (by norm_num))]
  omega

/-- Value of the four-digit rendering of a number below 10000. -/
theorem natOfDigits_pad4 {n : Nat} (h : n < 10000) : natOfDigits (pad4 n) = n := by
  simp only [natOfDigits, pad4, List.foldl_cons, List.foldl_nil,
    digitVal_digitChar (Nat.mod_lt _ (by norm_num)),
    digitVal_digitChar (Nat.mod_lt (n / 10) (by norm_num)),
    digitVal_digitChar (Nat.mod_lt (n / 100) (by norm_num)),
    digitVal_digitChar (Nat.mod_lt (n / 1000) (by norm_num))]
  omega

/-- Every month length is at most 31 days. -/
theorem daysInMonth_le_31 (y m : Nat) : daysInMonth y m ≤ 31 := by
  unfold daysInMonth
  repeat' split
  all_goals omega

/-- Unfolding of the date validator on nonempty input. -/
theorem validateDateL_ne_nil {l : List Char} (h : l ≠ []) :
    validateDateL l =
      match strptimeYmdL l with
      | some (y, m, d) => decide (1 ≤ y) && decide (d ≤ daysInMonth y m)
      | none => false := by
  cases l with
  | nil => exact absurd rfl h
  | cons c r => rfl

/-- Claim C3 (amended): date validation accepts the empty string and every
canonical zero-padded `YYYY-MM-DD` calendar date; it rejects any
digits-dash-digits-dash-digits string whose month value exceeds 12 and
rejects wrong delimiters; but -- correcting the claim -- single-digit month
and day fields are accepted, since the underlying `strptime` directives match
one or two digits. -/
theorem c3_date_validation_amended :
    (∀ y m d : Nat, 1 ≤ y → y ≤ 9999 → 1 ≤ m → m ≤ 12 → 1 ≤ d → d ≤ daysInMonth y m →
      validate_date_format (dateStr y m d) = true) ∧
    (∀ yc mc dc : List Char, allDigits yc = true → allDigits mc = true →
      allDigits dc = true → 12 < natOfDigits mc →
      validateDateL (yc ++ '-' :: (mc ++ '-' :: dc)) = false) ∧
    validate_date_format ("2023/01/01") = false ∧
    validate_date_format ("") = true ∧
    validate_date_format ("2023-1-1") = true := by
  refine ⟨?_, ?_, by decide, by decide, by decide⟩
  · intro y m d hy1 hy2 hm1 hm2 hd1 hd2
    have hm100 : m < 100 := by omega
    have hd31 : d ≤ 31 := le_trans hd2 (daysInMonth_le_31 y m)
    have hd100 : d < 100 := by omega
    have hy10000 : y < 10000 := by omega
    have hsplit : splitDash (pad4 y ++ '-' :: (pad2 m ++ '-' :: pad2 d))
        = [pad4 y, pad2 m, pad2 d] := by
      rw [splitDash_append _ (not_dash_mem_of_allDigits (allDigits_pad4 y)),
          splitDash_append _ (not_dash_mem_of_allDigits (allDigits_pad2 m)),
          splitDash_of_not_mem (not_dash_mem_of_allDigits (allDigits_pad2 d))]
    have hstr : strptimeYmdL (pad4 y ++ '-' :: (pad2 m ++ '-' :: pad2 d))
        = some (y, m, d) := by
      unfold strptimeYmdL
      rw [hsplit]
      have hl4 : ((pad4 y).length == 4) = true := by simp [pad4]
      have hmp : monthPat (pad2 m) = true := by
        simp only [monthPat, natOfDigits_pad2 hm100, allDigits_pad2]
        simp [pad2, hm1, hm2]
      have hdp : dayPat (pad2 d) = true := by
        simp only [dayPat, natOfDigits_pad2 hd100, allDigits_pad2]
        simp [pad2, hd1, hd31]
      simp [hl4, allDigits_pad4, hmp, hdp, natOfDigits_pad2 hm100,
        natOfDigits_pad2 hd100, natOfDigits_pad4 hy10000]
    have hne : pad4 y ++ '-' :: (pad2 m ++ '-' :: pad2 d) ≠ [] := by
      simp [pad4]
    show validateDateL (dateStr y m d).data = true
    have hdata : (dateStr y m d).data = pad4 y ++ '-' :: (pad2 m ++ '-' :: pad2 d) := rfl
    rw [hdata, validateDateL_ne_nil hne, hstr]
    simp [hy1, hd2]
  · intro yc mc dc hyd hmd hdd hgt
    have hsplit : splitDash (yc ++ '-' :: (mc ++ '-' :: dc)) = [yc, mc, dc] := by
      rw [splitDash_append _ (not_dash_mem_of_allDigits hyd),
          splitDash_append _ (not_dash_mem_of_allDigits hmd),
          splitDash_of_not_mem (not_dash_mem_of_allDigits hdd)]
    have hmp : monthPat mc = false := by
      have : ¬ (natOfDigits mc ≤ 12) := by omega
      simp [monthPat, this]
    have hstr : strptimeYmdL (yc ++ '-' :: (mc ++ '-' :: dc)) = none := by
      unfold strptimeYmdL
      rw [hsplit]
      simp [hmp]
    have hne : yc ++ '-' :: (mc ++ '-' :: dc) ≠ [] := by
      simp
    rw [validateDateL_ne_nil hne, hstr]

/-- Witness for the amended C3 theorem: a concrete canonical date is accepted
and a concrete month-13 string is rejected. -/
theorem c3_date_validation_amended_witness :
    validate_date_format (dateStr 2024 2 29) = true ∧
    validateDateL (['2', '0', '2', '3'] ++ '-' :: (['1', '3'] ++ '-' :: ['0', '1'])) = false :=
  ⟨c3_date_validation_amended.1 2024 2 29 (by decide) (by decide) (by decide) (by decide)
      (by decide) (by decide),
   c3_date_validation_amended.2.1 ['2', '0', '2', '3'] ['1', '3'] ['0', '1']
      (by decide) (by decide) (by decide) (by decide)⟩

/-- The metadata echo distributes over concatenation of parameter lists. -/
theorem echoParams_append (a b : List (String × String)) :
    echoParams (a ++ b) = echoParams a ++ echoParams b := by
  simp [echoParams, List.filter_append]

/-- A parameter whose key starts with a dollar sign is never echoed. -/
theorem echoParams_dollar_single (k v : String)
    (hk : startsWithL ("$").data k.data = true) : echoParams [(k, v)] = [] := by
  simp [echoParams, hk]

/-- Every query parameter the compiler emits has a dollar-prefixed key, so the
metadata echo of a compiled query is always empty. -/
theorem echoParams_buildQueryParams_empty (e : String) (p : OParams) :
    echoParams (buildQueryParams e p) = [] := by
  unfold buildQueryParams
  rw [echoParams_append, echoParams_append, echoParams_append, echoParams_append]
  have h1 : echoParams
      (if p.format = some ("xml") then [(("$format" : String), ("xml" : String))] else [])
      = [] := by
    split
    · exact echoParams_dollar_single _ _ (by decide)
    · rfl
  have h2 : echoParams
      (match p.top with
       | some t => [(("$top" : String), toString t)]
       | none => []) = [] := by
    cases p.top with
    | none => rfl
    | some t => exact echoParams_dollar_single _ _ (by decide)
  have h3 : echoParams
      (match p.skip with
       | some k => [(("$skip" : String), toString k)]
       | none => []) = [] := by
    cases p.skip with
    | none => rfl
    | some k => exact echoParams_dollar_single _ _ (by decide)
  have h4 : echoParams [(("$inlinecount" : String), ("allpages" : String))] = [] :=
    echoParams_dollar_single _ _ (by decide)
  have h5 : echoParams
      (match buildFilters e p with
       | [] => []
       | fs => [(("$filter" : String), String.intercalate (" and ") fs)]) = [] := by
    cases buildFilters e p with
    | nil => rfl
    | cons f fs => exact echoParams_dollar_single _ _ (by decide)
  rw [h1, h2, h3, h4, h5]
  rfl

/-- Claim C2 (amended): on a successful JSON search the metadata block holds
the endpoint name, an always-empty echoed parameter object (every compiled
parameter, including the filter, is dollar-prefixed and the code echoes only
non-dollar keys, so the filter expression never appears), and the nested
`d.__count` value when the upstream JSON exposes it, null when it does not. -/
theorem c2_metadata_amended (e : String) (p : OParams)
    (fields : List (String × JValue)) (cnt : Option JValue)
    (h : dCountE fields = Except.ok cnt) :
    jsonResult e (buildQueryParams e p) (JValue.jobj fields)
      = Except.ok (JValue.jobj (setKey fields ("_metadata")
          (JValue.jobj
            [(("endpoint" : String), JValue.jstr e),
             (("query_params" : String), JValue.jobj []),
             (("total_available" : String), cnt.getD JValue.null)]))) := by
  simp [jsonResult, h, echoParams_buildQueryParams_empty]

/-- Witness for the amended C2 theorem at a concrete search whose upstream
JSON exposes a nested count. -/
theorem c2_metadata_amended_witness :
    jsonResult ("voting") (buildQueryParams ("voting") {})
        (JValue.jobj [("d", JValue.jobj [("__count", JValue.jstr ("7"))])])
      = Except.ok (JValue.jobj
          [("d", JValue.jobj [("__count", JValue.jstr ("7"))]),
           ("_metadata", JValue.jobj
             [("endpoint", JValue.jstr ("voting")),
              ("query_params", JValue.jobj []),
              ("total_available", JValue.jstr ("7"))])]) :=
  c2_metadata_amended ("voting") {} [("d", JValue.jobj [("__count", JValue.jstr ("7"))])]
    (some (JValue.jstr ("7"))) (by rfl)

/-- Claim C4 (amended): hansard sub-type `questions` routes to the hansard
questions endpoint, and whenever the request carries a truthy question_type
the compiled filter list contains both the QuestionType clause (sanitized)
and the fixed locale pin `HansardType eq 'English'`; with an absent or empty
question_type neither clause is appended (see the counterexample). -/
theorem c4_hansard_questions_clauses_amended :
    (endpointMap.lookup ("questions")) = some ("hansard_questions") ∧
    (∀ p : OParams, truthyStr p.question_type = true →
      ("HansardType eq 'English'" : String) ∈ buildFilters ("hansard_questions") p ∧
      ("QuestionType eq '" ++ (sanitize_string (p.question_type.getD (""))) ++ "'")
        ∈ buildFilters ("hansard_questions") p) := by
  refine ⟨by decide, fun p h => ?_⟩
  constructor <;>
  · simp only [buildFilters]
    rw [if_neg (by decide), if_neg (by decide), if_neg (by decide), if_pos (by decide)]
    simp [List.mem_append, h]

/-- Witness for the amended C4 theorem at a concrete oral question request. -/
theorem c4_hansard_questions_clauses_amended_witness :
    ("HansardType eq 'English'" : String)
      ∈ buildFilters ("hansard_questions") { question_type := some ("Oral") } ∧
    ("QuestionType eq '" ++
        (sanitize_string ((some ("Oral") : Option String).getD (""))) ++ "'")
      ∈ buildFilters ("hansard_questions") { question_type := some ("Oral") } :=
  (c4_hansard_questions_clauses_amended.2 { question_type := some ("Oral") } (by decide))

/-- Claim C5 (amended): validation raises a range `ValueError` -- so the call
never compiles a filter or reaches the network -- for every nonzero
`term_no` below 1, every nonzero `gazette_year` outside [1800,2100], every
nonzero `year` outside [2000,2100], every `top` outside [1,1000] and every
negative `skip`; but a zero `term_no`, `gazette_year` or `year` is falsy in
the source's truthiness guard and is treated as absent rather than rejected
(see the counterexample). -/
theorem c5_range_validation_amended :
    (∀ (mt sd ed mn mk : Option String) (tn top skip : Int) (fmt : String),
      tn ≠ 0 → tn < 1 →
      (search_voting_results mt sd ed mn mk (some tn) top skip fmt).isErr = true) ∧
    (∀ (mt sd ed mn mk : Option String) (tn : Option Int) (top skip : Int) (fmt : String),
      top < 1 ∨ top > 1000 →
      (search_voting_results mt sd ed mn mk tn top skip fmt).isErr = true) ∧
    (∀ (mt sd ed mn mk : Option String) (tn : Option Int) (top skip : Int) (fmt : String),
      skip < 0 →
      (search_voting_results mt sd ed mn mk tn top skip fmt).isErr = true) ∧
    (∀ (tk : Option String) (gy : Int) (gsd ged : Option String)
        (top skip : Int) (fmt : String),
      gy ≠ 0 → (gy < 1800 ∨ gy > 2100) →
      (search_bills tk (some gy) gsd ged top skip fmt).isErr = true) ∧
    (∀ (qt : String) (sk mn md : Option String) (yr : Int)
        (top skip : Int) (fmt : String),
      yr ≠ 0 → (yr < 2000 ∨ yr > 2100) →
      (search_questions qt sk mn md (some yr) top skip fmt).isErr = true) := by
  refine ⟨?_, ?_, ?_, ?_, ?_⟩
  · intro mt sd ed mn mk tn top skip fmt h1 h2
    unfold search_voting_results
    repeat' split
    all_goals simp_all [SearchOutcome.isErr, truthyInt]
  · intro mt sd ed mn mk tn top skip fmt h1
    unfold search_voting_results
    repeat' split
    all_goals simp_all [SearchOutcome.isErr]
  · intro mt sd ed mn mk tn top skip fmt h1
    unfold search_voting_results
    repeat' split
    all_goals simp_all [SearchOutcome.isErr]
  · intro tk gy gsd ged top skip fmt h1 h2
    unfold search_bills
    repeat' split
    all_goals simp_all [SearchOutcome.isErr, truthyInt]
  · intro qt sk mn md yr top skip fmt h1 h2
    unfold search_questions
    repeat' split
    all_goals simp_all [SearchOutcome.isErr, truthyInt]

/-- Witness for the amended C5 theorem: each range violation rejected at a
concrete input. -/
theorem c5_range_validation_amended_witness :
    (search_voting_results none none none none none (some (-3)) 100 0 ("json")).isErr
      = true ∧
    (search_voting_results none none none none none none 2000 0 ("json")).isErr = true ∧
    (search_voting_results none none none none none none 100 (-1) ("json")).isErr = true ∧
    (search_bills none (some 3000) none none 100 0 ("json")).isErr = true ∧
    (search_questions ("oral") none none none (some 1999) 100 0 ("json")).isErr = true :=
  ⟨c5_range_validation_amended.1 none none none none none (-3) 100 0 ("json")
      (by decide) (by decide),
   c5_range_validation_amended.2.1 none none none none none none 2000 0 ("json")
      (by omega),
   c5_range_validation_amended.2.2.1 none none none none none none 100 (-1) ("json")
      (by decide),
   c5_range_validation_amended.2.2.2.1 none 3000 none none 100 0 ("json")
      (by decide) (by omega),
   c5_range_validation_amended.2.2.2.2 ("oral") none none none 1999 100 0 ("json")
      (by decide) (by omega)⟩

/-- Claim C7: the scenario voting search compiles exactly the documented
filter string joined with " and " in source field order together with
`$top=10` and `$skip=0`; moreover every compiled query carries
`$inlinecount=allpages`, and carries `$format=xml` exactly when xml was
requested. -/
theorem c7_voting_scenario_confirmed :
    search_voting_results (some ("Council Meeting")) (some ("2023-01-01"))
        none none none none 10 0 ("json")
      = SearchOutcome.query ("voting")
          [("$top", "10"), ("$skip", "0"), ("$inlinecount", "allpages"),
           ("$filter", "type eq 'Council Meeting' and start_date ge datetime'2023-01-01'")] ∧
    (∀ (e : String) (p : OParams),
      (("$inlinecount", "allpages") : String × String) ∈ buildQueryParams e p) ∧
    (∀ (e : String) (p : OParams),
      (("$format", "xml") : String × String) ∈ buildQueryParams e p
        ↔ p.format = some ("xml")) := by
  refine ⟨by decide, ?_, ?_⟩
  · intro e p
    unfold buildQueryParams
    exact List.mem_append_left _ (List.mem_append_right _ (List.mem_singleton_self _))
  · intro e p
    unfold buildQueryParams
    by_cases hf : p.format = some ("xml") <;>
      cases p.top <;> cases p.skip <;> cases buildFilters e p <;>
        simp_all [List.mem_append]

/-- Claim C8 (amended): bills validation is fail-fast in source order, which
checks the numeric `gazette_year` range before the gazette date fields; a
bills request with a nonzero out-of-range gazette_year therefore reports the
range error whatever the date fields contain -- in particular a request with
both a malformed gazette_start_date and a bad gazette_year reports the year
error, not the date error. -/
theorem c8_bills_gazette_year_first_amended :
    ∀ (tk : Option String) (gy : Int) (gsd ged : Option String)
      (top skip : Int) (fmt : String),
      gy ≠ 0 → (gy < 1800 ∨ gy > 2100) →
      search_bills tk (some gy) gsd ged top skip fmt
        = SearchOutcome.err
            ("Invalid gazette_year: " ++ toString gy ++ ". Must be between 1800 and 2100") := by
  intro tk gy gsd ged top skip fmt h1 h2
  unfold search_bills
  simp only [Option.getD_some]
  have hc : (truthyInt (some gy) &&
      (decide (gy < 1800) || decide (gy > 2100))) = true := by
    simp [truthyInt]
    omega
  rw [if_pos hc]

/-- Witness for the amended C8 theorem at a concrete doubly-invalid request. -/
theorem c8_bills_gazette_year_first_amended_witness :
    search_bills none (some 1700) (some ("not-a-date")) none 100 0 ("json")
      = SearchOutcome.err
          ("Invalid gazette_year: " ++ toString (1700 : Int) ++
            ". Must be between 1800 and 2100") :=
  c8_bills_gazette_year_first_amended none 1700 (some ("not-a-date")) none 100 0 ("json")
    (by decide) (by omega)

/-- Claim C9: every hansard_type outside the five allowed values is rejected
by validation before dispatch (the silent routing default is unreachable),
and the registry lookup raises the unknown-endpoint API error for any name
not in the endpoint table. -/
theorem c9_unknown_endpoint_rejected :
    (∀ (ht : String) (sk sp md : Option String) (yr : Option Int)
        (qt : Option String) (top skip : Int) (fmt : String),
      validate_enum ht HANSARD_TYPES = false →
      (search_hansard ht sk sp md yr qt top skip fmt).isErr = true) ∧
    (∀ (e : String) (p : OParams), BASE_URLS.lookup e = none →
      search_odata_endpoint e p = SearchOutcome.apiErr ("Unknown endpoint: " ++ e)) := by
  constructor
  · intro ht sk sp md yr qt top skip fmt h
    simp [search_hansard, h, SearchOutcome.isErr]
  · intro e p h
    simp [search_odata_endpoint, h]

/-- Witness for the C9 theorem at a concrete invalid sub-type and a concrete
unregistered endpoint name. -/
theorem c9_unknown_endpoint_rejected_witness :
    (search_hansard ("plenary") none none none none none 100 0 ("json")).isErr = true ∧
    search_odata_endpoint ("nope") {} = SearchOutcome.apiErr ("Unknown endpoint: " ++ "nope") :=
  ⟨c9_unknown_endpoint_rejected.1 ("plenary") none none none none none 100 0 ("json")
      (by decide),
   c9_unknown_endpoint_rejected.2 ("nope") {} (by decide)⟩
